import Mathlib

/-!
Verification development for the numba-dppy USM array utilities.

Shallow embedding of:
  * numba_dppy/utils/array_utils.py  (has_usm_memory, copy_from_numpy_to_usm_obj,
    copy_to_numpy_from_usm_obj, as_usm_backed)
  * numba_dppy/dppy_array_type.py    (DPPYArray: key, copy)
  * numba_dppy/descriptor.py         (_NestedContext.nested)

Python exceptions are modelled with `Except`/error codes, the mutation of a USM
buffer is modelled by returning the updated buffer, and the mutation of the
thread-local nested-context fields is modelled by explicit state passing.
-/

namespace NumbaDppy

/-- NumPy element dtypes relevant to the module.  Dtypes outside the six numeric
ones the spec discusses are collapsed into `other` with an explicit item size. -/
inductive NpDtype
  | int32
  | int64
  | uint32
  | uint64
  | float32
  | float64
  | other (name : String) (isize : Nat)
deriving DecidableEq

/-- Item size in bytes of a dtype (numpy `dtype.itemsize`). -/
def NpDtype.itemsize : NpDtype → Nat
  | .int32 => 4
  | .int64 => 8
  | .uint32 => 4
  | .uint64 => 8
  | .float32 => 4
  | .float64 => 8
  | .other _ n => n

/-- The `supported_numpy_dtype` list of array_utils.py, transcribed verbatim:
the source lists `np.int64` twice and does not list `np.uint64`. -/
def supported_numpy_dtype : List NpDtype :=
  [.int32, .int64, .uint32, .int64, .float32, .float64]

/-- A host numpy ndarray.  `elems` holds the logical element values in row-major
(C) order, each element being `dtype.itemsize` raw bytes; for a C-contiguous
array this row-major sequence is also the in-memory byte layout. -/
structure NDArray where
  dtype : NpDtype
  shape : List Nat
  elems : List (List UInt8)
  c_contiguous : Bool
deriving DecidableEq

/-- Well-formedness of an ndarray: the element count matches the shape and every
element has exactly `itemsize` bytes (always true of a real numpy array). -/
def NDArray.wf (a : NDArray) : Prop :=
  a.elems.length = a.shape.prod ∧ ∀ e ∈ a.elems, e.length = a.dtype.itemsize

instance (a : NDArray) : Decidable a.wf := by
  unfold NDArray.wf
  infer_instance

/-- In-memory bytes of a C-contiguous array, as exposed by
`memoryview(obj).cast("B")`. -/
def NDArray.tobytes (a : NDArray) : List UInt8 :=
  a.elems.flatten

/-- `obj.flatten(order="C")`: a fresh 1-D C-contiguous array holding the logical
elements in row-major order. -/
def NDArray.flatten (a : NDArray) : NDArray :=
  { dtype := a.dtype, shape := [a.shape.prod], elems := a.elems, c_contiguous := true }

/-- A USM memory allocation (dpctl MemoryUSMShared / MemoryUSMDevice /
MemoryUSMHost): its byte content, the queue it was allocated against, and its
memory kind. -/
structure UsmMem where
  bytes : List UInt8
  queue : Option Nat
  kind : String
deriving DecidableEq

/-- `usm_mem.size`: the allocation's size in bytes. -/
def UsmMem.size (m : UsmMem) : Nat :=
  m.bytes.length

/-- `usm_mem.copy_from_host(b)`: overwrite the first `b.length` bytes of the
allocation with `b`. -/
def UsmMem.copy_from_host (m : UsmMem) (b : List UInt8) : UsmMem :=
  { m with bytes := b ++ m.bytes.drop b.length }

/-- `usm_mem.copy_to_host(dest)`: the bytes written into a destination buffer of
`n` bytes are the allocation's bytes followed by the untouched tail of the
destination. -/
def UsmMem.copy_to_host (m : UsmMem) (dest : List UInt8) : List UInt8 :=
  m.bytes ++ dest.drop m.size

/-- A Python value as far as the module can distinguish it: a numpy ndarray or
anything else. -/
inductive PyVal
  | ndarray (a : NDArray)
  | other (descr : String)
deriving DecidableEq

/-- A host object as probed by `has_usm_memory`: the outcome of
`dpctl.memory.as_usm_memory(obj)` (which may raise), the optional `base`
attribute with the outcome of probing it, and the underlying Python value. -/
structure HostObj where
  usmProbe : Except String UsmMem
  base : Option (Except String UsmMem)
  val : PyVal

/-- `has_usm_memory(obj)` from array_utils.py: probe the object, then its
`base` attribute if the first probe raised and a base exists; every exception is
caught, so the function only ever returns a buffer or `None`. -/
def has_usm_memory (obj : HostObj) : Option UsmMem :=
  match obj.usmProbe with
  | .ok m => some m
  | .error _ =>
    match obj.base with
    | some (.ok m) => some m
    | some (.error _) => none
    | none => none

/-- Error outcomes of the module, one per distinct raise site. -/
inductive Err
  | NotDeviceBacked
  | NotNdarray
  | UnsupportedDType
  | SizeMismatch
  | QueueRequired
  | InvalidQueueType
  | InvalidMemoryKind
  | MemviewCast
deriving DecidableEq

/-- `copy_from_numpy_to_usm_obj(usm_backed, obj)`: checks in source order
(USM backing, ndarray, dtype), then repacks a non-C-contiguous array with
`flatten(order="C")`, checks the byte size, and copies the packed bytes into
the buffer.  Returns `(obj, packed_obj, packed)` plus the updated buffer. -/
def copy_from_numpy_to_usm_obj (usm_backed : HostObj) (obj : PyVal) :
    Except Err (PyVal × NDArray × Bool × UsmMem) :=
  match has_usm_memory usm_backed with
  | none => .error .NotDeviceBacked
  | some usm_mem =>
    match obj with
    | .other _ => .error .NotNdarray
    | .ndarray a =>
      if a.dtype ∈ supported_numpy_dtype then
        let pp : NDArray × Bool :=
          if !a.c_contiguous then (a.flatten, true) else (a, false)
        let packed_obj := pp.1
        let packed := pp.2
        let size := packed_obj.shape.prod
        if usm_mem.size = packed_obj.dtype.itemsize * size then
          .ok (obj, packed_obj, packed, usm_mem.copy_from_host packed_obj.tobytes)
        else
          .error .SizeMismatch
      else
        .error .UnsupportedDType

/-- `copy_to_numpy_from_usm_obj(usm_backed, obj)`: same checks, no repacking,
then `memoryview(obj).cast("B")` (which fails on a non-contiguous destination)
and `copy_to_host`.  Returns the new byte content of `obj`'s memory. -/
def copy_to_numpy_from_usm_obj (usm_backed : HostObj) (obj : PyVal) :
    Except Err (List UInt8) :=
  match has_usm_memory usm_backed with
  | none => .error .NotDeviceBacked
  | some usm_mem =>
    match obj with
    | .other _ => .error .NotNdarray
    | .ndarray a =>
      if a.dtype ∈ supported_numpy_dtype then
        let size := a.shape.prod
        if usm_mem.size = a.dtype.itemsize * size then
          if a.c_contiguous then
            .ok (usm_mem.copy_to_host a.tobytes)
          else
            .error .MemviewCast
        else
          .error .SizeMismatch
      else
        .error .UnsupportedDType

/-- The `queue` argument of `as_usm_backed`: `None`, a `dpctl.SyclQueue`, or a
value of some other type. -/
inductive QueueArg
  | none
  | sycl (id : Nat)
  | other (descr : String)
deriving DecidableEq

/-- `as_usm_backed(obj, queue, usm_type, copy)` from array_utils.py, in source
order: classify, validate `queue` (unconditionally), then — only when the
object is not USM-backed — check ndarray/dtype, dispatch on `usm_type` to
allocate, and optionally copy.  The result carries the returned buffer and the
number of host-to-device copies performed. -/
def as_usm_backed (obj : HostObj) (queue : QueueArg) (usm_type : String) (copy : Bool) :
    Except Err (UsmMem × Nat) :=
  let usmMem? := has_usm_memory obj
  match queue with
  | .none => .error .QueueRequired
  | .other _ => .error .InvalidQueueType
  | .sycl qid =>
    match usmMem? with
    | some m => .ok (m, 0)
    | none =>
      match obj.val with
      | .other _ => .error .NotNdarray
      | .ndarray a =>
        if a.dtype ∈ supported_numpy_dtype then
          let size := a.shape.prod
          let alloc? : Option UsmMem :=
            if usm_type = "shared" then
              some ⟨List.replicate (size * a.dtype.itemsize) 0, some qid, "shared"⟩
            else if usm_type = "device" then
              some ⟨List.replicate (size * a.dtype.itemsize) 0, some qid, "device"⟩
            else if usm_type = "host" then
              some ⟨List.replicate (size * a.dtype.itemsize) 0, some qid, "host"⟩
            else
              Option.none
          match alloc? with
          | Option.none => .error .InvalidMemoryKind
          | some fresh =>
            if copy then
              match copy_from_numpy_to_usm_obj ⟨.ok fresh, Option.none, .other "usm_mem"⟩ obj.val with
              | .ok (_, _, _, m2) => .ok (m2, 1)
              | .error e => .error e
            else
              .ok (fresh, 0)
        else
          .error .UnsupportedDType

/-- Array layout class of a numba array type: C-contiguous, F-contiguous or
any/strided. -/
inductive Layout
  | c
  | f
  | a
deriving DecidableEq

/-- The DPPYArray type of dppy_array_type.py: the six fields that make up its
identity key.  `mutable` is the numba base-class field set from the
constructor's `readonly` argument. -/
structure DPPYArray where
  dtype : NpDtype
  ndim : Nat
  layout : Layout
  mutable : Bool
  aligned : Bool
  addrspace : Option Nat
deriving DecidableEq

/-- `DPPYArray.__init__(dtype, ndim, layout, readonly, aligned, addrspace)`:
stores `addrspace` and delegates to the numba `Array` base, which records
`mutable = not readonly`. -/
def DPPYArray.mk_init (dtype : NpDtype) (ndim : Nat) (layout : Layout)
    (readonly : Bool) (aligned : Bool) (addrspace : Option Nat) : DPPYArray :=
  { dtype := dtype, ndim := ndim, layout := layout, mutable := !readonly,
    aligned := aligned, addrspace := addrspace }

/-- `DPPYArray.key`: the tuple
`(dtype, ndim, layout, mutable, aligned, addrspace)`. -/
def DPPYArray.key (t : DPPYArray) : NpDtype × Nat × Layout × Bool × Bool × Option Nat :=
  (t.dtype, t.ndim, t.layout, t.mutable, t.aligned, t.addrspace)

/-- Modelled from the spec: equality of numba types is structural on the key
tuple ("Equality/hash must be structural on the key tuple"); the `__eq__` of
the numba `Type` base class is not part of this repository. -/
def DPPYArray.py_eq (t1 t2 : DPPYArray) : Bool :=
  decide (t1.key = t2.key)

/-- Injective numeric code of an address-space tag (None or a numbered space). -/
def addrspaceEnc : Option Nat → Nat
  | Option.none => 0
  | some n => n + 1

/-- Numeric code of a dtype, used only inside the structural hash. -/
def NpDtype.enc : NpDtype → Nat
  | .int32 => 0
  | .int64 => 1
  | .uint32 => 2
  | .uint64 => 3
  | .float32 => 4
  | .float64 => 5
  | .other _ n => 6 + n

/-- Numeric code of a layout, used only inside the structural hash. -/
def Layout.enc : Layout → Nat
  | .c => 0
  | .f => 1
  | .a => 2

/-- Numeric code of a Bool, used only inside the structural hash. -/
def boolEnc : Bool → Nat
  | false => 0
  | true => 1

/-- Modelled from the spec: hashing of numba types is structural on the key
tuple; realized as a pairing of the key components, so that distinct key
components yield distinct hashes.  The `__hash__` of the numba `Type` base
class is not part of this repository. -/
def DPPYArray.py_hash (t : DPPYArray) : Nat :=
  Nat.pair t.dtype.enc (Nat.pair t.ndim (Nat.pair t.layout.enc
    (Nat.pair (boolEnc t.mutable) (Nat.pair (boolEnc t.aligned) (addrspaceEnc t.addrspace)))))

/-- `DPPYArray.copy(dtype, ndim, layout, readonly, addrspace)`: each argument,
when absent (`None` in Python), is replaced by the corresponding field of
`self` (`readonly` by `not self.mutable`); `aligned` is not a parameter and is
always taken from `self`. -/
def DPPYArray.copy (self : DPPYArray) (dtype : Option NpDtype) (ndim : Option Nat)
    (layout : Option Layout) (readonly : Option Bool) (addrspace : Option Nat) : DPPYArray :=
  let dtype := dtype.getD self.dtype
  let ndim := ndim.getD self.ndim
  let layout := layout.getD self.layout
  let readonly := readonly.getD (!self.mutable)
  let addrspace :=
    match addrspace with
    | Option.none => self.addrspace
    | some n => some n
  DPPYArray.mk_init dtype ndim layout readonly self.aligned addrspace

/-- The two thread-local fields of `_NestedContext` in descriptor.py. -/
structure NestedContextState where
  typing_context : Option Nat
  target_context : Option Nat
deriving DecidableEq

/-- Outcome of the `with` block's body: normal return or a raised exception. -/
inductive BodyResult
  | ok
  | raised (e : String)
deriving DecidableEq

/-- `_NestedContext.nested(typing_context, target_context)`: save the old pair,
install the new pair, run the body (which may itself mutate the fields and may
raise), and in the `finally` clause restore the saved pair; the body's outcome
(normal or raised) is propagated unchanged. -/
def NestedContext.nested (s : NestedContextState) (typing_context target_context : Nat)
    (body : NestedContextState → BodyResult × NestedContextState) :
    BodyResult × NestedContextState :=
  let old_nested := (s.typing_context, s.target_context)
  let res := body { typing_context := some typing_context, target_context := some target_context }
  (res.1, { res.2 with typing_context := old_nested.1, target_context := old_nested.2 })

/-! Helper lemmas shared by the claim theorems. -/

/-- The address-space encoding used by the structural hash is injective. -/
theorem addrspaceEnc_injective {x y : Option Nat} (h : addrspaceEnc x = addrspaceEnc y) :
    x = y := by
  cases x with
  | none =>
    cases y with
    | none => rfl
    | some b => simp [addrspaceEnc] at h
  | some a =>
    cases y with
    | none => simp [addrspaceEnc] at h
    | some b =>
      simp only [addrspaceEnc] at h
      have hab : a = b := by omega
      rw [hab]

/-- Flattening a list of equal-length chunks yields `k * count` bytes. -/
theorem flatten_length_of_uniform (k : Nat) :
    ∀ l : List (List UInt8), (∀ e ∈ l, e.length = k) → l.flatten.length = k * l.length := by
  intro l
  induction l with
  | nil => intro _; simp
  | cons x xs ih =>
    intro h
    have hx : x.length = k := h x (by simp)
    have hxs := ih (fun e he => h e (by simp [he]))
    simp [List.flatten_cons, hx, hxs, Nat.mul_succ, Nat.add_comm]

/-! Claim theorems. -/

/-- C7: for every prior (typing_context, target_context) pair and every body —
normally returning or raising — leaving the `nested` scope restores exactly the
prior pair in the nested state, and the body's outcome is propagated. -/
theorem C7_nested_restores_prior_pair :
    ∀ (s : NestedContextState) (tc tg : Nat)
      (body : NestedContextState → BodyResult × NestedContextState),
      (NestedContext.nested s tc tg body).2 = s ∧
      (NestedContext.nested s tc tg body).1 =
        (body ⟨some tc, some tg⟩).1 := by
  intro s tc tg body
  obtain ⟨t1, t2⟩ := s
  exact ⟨rfl, rfl⟩

/-- C8: `has_usm_memory` is a total function into `Option`: it returns the
buffer found by probing the object itself, or — when that probe raised and a
`base` attribute exists — the buffer found by probing the base, and `None`
in every other case; no exception propagates to the caller. -/
theorem C8_has_usm_memory_characterization :
    ∀ (o : HostObj) (m : UsmMem),
      has_usm_memory o = some m ↔
        (o.usmProbe = Except.ok m ∨
          ((∃ e, o.usmProbe = Except.error e) ∧ o.base = some (Except.ok m))) := by
  intro o m
  obtain ⟨p, b, v⟩ := o
  cases p with
  | ok m1 => simp [has_usm_memory]
  | error e0 =>
    cases b with
    | none => simp [has_usm_memory]
    | some r =>
      cases r with
      | ok m1 => simp [has_usm_memory]
      | error e1 => simp [has_usm_memory]

/-- C2: equality of `DPPYArray` is structural on the key tuple, and two types
whose keys differ only in the address-space tag compare unequal and hash
differently. -/
theorem C2_key_structural_eq_hash :
    ∀ t1 t2 : DPPYArray,
      (DPPYArray.py_eq t1 t2 = true ↔ t1.key = t2.key) ∧
      (t1.dtype = t2.dtype → t1.ndim = t2.ndim → t1.layout = t2.layout →
        t1.mutable = t2.mutable → t1.aligned = t2.aligned →
        t1.addrspace ≠ t2.addrspace →
        DPPYArray.py_eq t1 t2 = false ∧ DPPYArray.py_hash t1 ≠ DPPYArray.py_hash t2) := by
  intro t1 t2
  constructor
  · constructor
    · intro h
      exact of_decide_eq_true h
    · intro h
      exact decide_eq_true h
  · intro h1 h2 h3 h4 h5 h6
    constructor
    · apply decide_eq_false
      intro hk
      apply h6
      have := congrArg (fun k => k.2.2.2.2.2) hk
      simpa [DPPYArray.key] using this
    · intro hh
      apply h6
      unfold DPPYArray.py_hash at hh
      rw [h1, h2, h3, h4, h5] at hh
      have h7 := (Nat.pair_eq_pair.mp hh).2
      have h8 := (Nat.pair_eq_pair.mp h7).2
      have h9 := (Nat.pair_eq_pair.mp h8).2
      have h10 := (Nat.pair_eq_pair.mp h9).2
      have h11 := (Nat.pair_eq_pair.mp h10).2
      exact addrspaceEnc_injective h11

/-- C2 witness: two concrete types identical except for the address-space tag
compare unequal and hash differently. -/
theorem C2_key_structural_eq_hash_witness :
    DPPYArray.py_eq ⟨NpDtype.int32, 1, Layout.c, true, true, Option.none⟩
        ⟨NpDtype.int32, 1, Layout.c, true, true, some 1⟩ = false ∧
    DPPYArray.py_hash ⟨NpDtype.int32, 1, Layout.c, true, true, Option.none⟩ ≠
      DPPYArray.py_hash ⟨NpDtype.int32, 1, Layout.c, true, true, some 1⟩ :=
  (C2_key_structural_eq_hash ⟨NpDtype.int32, 1, Layout.c, true, true, Option.none⟩
    ⟨NpDtype.int32, 1, Layout.c, true, true, some 1⟩).2 rfl rfl rfl rfl rfl (by decide)

/-- C5 counterexample: `copy` cannot override the `aligned` field — for a type
with `aligned = false`, no combination of arguments produces `aligned = true`,
so derivation cannot override every subset of the six key fields. -/
theorem C5_aligned_not_overridable_cex :
    ¬ ∃ (d : Option NpDtype) (n : Option Nat) (l : Option Layout)
        (r : Option Bool) (asp : Option Nat),
        (DPPYArray.copy ⟨NpDtype.int32, 1, Layout.c, true, false, Option.none⟩
          d n l r asp).aligned = true := by
  rintro ⟨d, n, l, r, asp, h⟩
  simp [DPPYArray.copy, DPPYArray.mk_init] at h

/-- C5 (amended): `copy` overrides any subset of the five parameters
{dtype, ndim, layout, readonly/mutable, addrspace} and inherits every
non-overridden field; `aligned` is always inherited.  Stated for every
presence pattern of the five optional arguments: each field of the result is
the overriding value when the corresponding argument is present and the
source's field when it is absent.  In particular `copy` with no overrides
returns a type equal to the source, and overriding only `ndim` changes only
`ndim`. -/
theorem C5_copy_override_or_inherit :
    ∀ (t : DPPYArray) (d : NpDtype) (n : Nat) (l : Layout) (r : Bool) (asp : Nat)
      (od : Option NpDtype) (onn : Option Nat) (ol : Option Layout)
      (orr : Option Bool) (oa : Option Nat),
      (DPPYArray.copy t od onn ol orr oa).dtype = od.getD t.dtype ∧
      (DPPYArray.copy t od onn ol orr oa).ndim = onn.getD t.ndim ∧
      (DPPYArray.copy t od onn ol orr oa).layout = ol.getD t.layout ∧
      (DPPYArray.copy t od onn ol orr oa).mutable = orr.elim t.mutable (fun rr => !rr) ∧
      (DPPYArray.copy t od onn ol orr oa).aligned = t.aligned ∧
      (DPPYArray.copy t od onn ol orr oa).addrspace = oa.elim t.addrspace some ∧
      DPPYArray.copy t Option.none Option.none Option.none Option.none Option.none = t ∧
      DPPYArray.copy t Option.none (some 3) Option.none Option.none Option.none =
        { t with ndim := 3 } ∧
      DPPYArray.copy t (some d) (some n) (some l) (some r) (some asp) =
        { dtype := d, ndim := n, layout := l, mutable := !r, aligned := t.aligned,
          addrspace := some asp } := by
  intro t d n l r asp od onn ol orr oa
  obtain ⟨dt, nd, ly, mu, al, a0⟩ := t
  refine ⟨?_, ?_, ?_, ?_, ?_, ?_, ?_, ?_, ?_⟩ <;>
    cases orr <;> cases oa <;>
      simp [DPPYArray.copy, DPPYArray.mk_init, Option.getD, Option.elim]

/-! Concrete objects used by witnesses and counterexamples. -/

/-- An 8-byte shared USM allocation on queue 0. -/
def usm8mem : UsmMem :=
  ⟨List.replicate 8 0, some 0, "shared"⟩

/-- A host object directly backed by `usm8mem`. -/
def usm8 : HostObj :=
  ⟨.ok usm8mem, Option.none, .other "usm_mem"⟩

/-- A C-contiguous int32 array of two elements. -/
def arr_i32 : NDArray :=
  ⟨NpDtype.int32, [2], [[1, 2, 3, 4], [5, 6, 7, 8]], true⟩

/-- The same array content, but not C-contiguous (e.g. a strided view). -/
def arr_i32_nc : NDArray :=
  ⟨NpDtype.int32, [2], [[1, 2, 3, 4], [5, 6, 7, 8]], false⟩

/-- A zero-filled C-contiguous int32 destination array of the same shape. -/
def arr_i32_zero : NDArray :=
  ⟨NpDtype.int32, [2], [[0, 0, 0, 0], [0, 0, 0, 0]], true⟩

/-- A one-element uint64 array. -/
def arr_u64 : NDArray :=
  ⟨NpDtype.uint64, [1], [[0, 0, 0, 0, 0, 0, 0, 0]], true⟩

/-- A host object that is not USM-backed and wraps `arr_u64`. -/
def arr_u64_obj : HostObj :=
  ⟨.error "no sycl usm array interface", Option.none, .ndarray arr_u64⟩

/-- A host object that is not USM-backed and wraps `arr_i32`. -/
def arr_i32_obj : HostObj :=
  ⟨.error "no sycl usm array interface", Option.none, .ndarray arr_i32⟩

/-- A 4-byte USM-backed host object on queue 7. -/
def backed_obj : HostObj :=
  ⟨.ok ⟨List.replicate 4 0, some 7, "shared"⟩, Option.none, .other "x"⟩

/-- A second USM-backed host object, on queue 3 with device kind. -/
def backed_obj2 : HostObj :=
  ⟨.ok ⟨List.replicate 4 1, some 3, "device"⟩, Option.none, .other "y"⟩

/-- C1 counterexample: on a USM-backed object the `queue` argument does impose
a requirement — `queue=None` raises `QueueRequired` and a non-queue value
raises `InvalidQueueType`, even though the object is already backed. -/
theorem C1_queue_checked_on_backed_path_cex :
    has_usm_memory backed_obj = some ⟨List.replicate 4 0, some 7, "shared"⟩ ∧
    as_usm_backed backed_obj QueueArg.none "shared" true = .error .QueueRequired ∧
    as_usm_backed backed_obj (QueueArg.other "int") "shared" true =
      .error .InvalidQueueType :=
  ⟨rfl, rfl, rfl⟩

/-- C1 (amended): for every USM-backed object and every valid (SyclQueue)
`queue`, `as_usm_backed` performs zero copies and returns the existing backing
buffer unchanged, whatever `usm_type` and `copy` are; the kind-validity
requirement applies only to the not-backed path, but the queue checks run on
every path. -/
theorem C1_backed_path_zero_copy :
    ∀ (obj : HostObj) (m : UsmMem) (qid : Nat) (usm_type : String) (copy : Bool),
      has_usm_memory obj = some m →
      as_usm_backed obj (QueueArg.sycl qid) usm_type copy = .ok (m, 0) := by
  intro obj m qid k c h
  simp [as_usm_backed, h]

/-- C1 witness: a concrete backed object with a valid queue, an invalid kind
and `copy=false` still yields the existing buffer with zero copies. -/
theorem C1_backed_path_zero_copy_witness :
    as_usm_backed backed_obj (QueueArg.sycl 0) "not-a-kind" false =
      .ok (⟨List.replicate 4 0, some 7, "shared"⟩, 0) :=
  C1_backed_path_zero_copy backed_obj ⟨List.replicate 4 0, some 7, "shared"⟩ 0
    "not-a-kind" false rfl

/-- C4: uint64 is missing from `supported_numpy_dtype` (the source lists
`np.int64` twice instead), so a uint64 host array is rejected with the
unsupported-dtype error by all three transfer-engine entry points, contrary to
the documented set of supported dtypes. -/
theorem C4_uint64_rejected :
    NpDtype.uint64 ∉ supported_numpy_dtype ∧
    copy_from_numpy_to_usm_obj usm8 (.ndarray arr_u64) = .error .UnsupportedDType ∧
    copy_to_numpy_from_usm_obj usm8 (.ndarray arr_u64) = .error .UnsupportedDType ∧
    as_usm_backed arr_u64_obj (QueueArg.sycl 0) "shared" true =
      .error .UnsupportedDType :=
  ⟨by decide, rfl, rfl, rfl⟩

/-- C9: for a C-contiguous host array passing the type, dtype and size checks,
`copy_from_numpy_to_usm_obj` returns the input array itself as the packed
array together with `packed = false`; no repacking copy is made. -/
theorem C9_contiguous_no_repack :
    ∀ (usm_backed : HostObj) (m : UsmMem) (a : NDArray),
      has_usm_memory usm_backed = some m →
      a.c_contiguous = true →
      a.dtype ∈ supported_numpy_dtype →
      m.size = a.dtype.itemsize * a.shape.prod →
      copy_from_numpy_to_usm_obj usm_backed (.ndarray a) =
        .ok (.ndarray a, a, false, m.copy_from_host a.tobytes) := by
  intro ub m a hm hc hd hs
  simp [copy_from_numpy_to_usm_obj, hm, hc, hd, hs]

/-- C9 witness: a concrete contiguous int32 array is passed through unchanged
with `packed = false`. -/
theorem C9_contiguous_no_repack_witness :
    copy_from_numpy_to_usm_obj usm8 (.ndarray arr_i32) =
      .ok (.ndarray arr_i32, arr_i32, false, usm8mem.copy_from_host arr_i32.tobytes) :=
  C9_contiguous_no_repack usm8 usm8mem arr_i32 rfl rfl (by decide) (by decide)

/-- C10: with a valid queue and a `usm_type` outside {shared, device, host},
`as_usm_backed` still succeeds and returns the existing buffer for a USM-backed
object, and raises the invalid-kind error only on the allocation path (object
not backed, ndarray of supported dtype). -/
theorem C10_kind_checked_only_on_alloc_path :
    ∀ (obj : HostObj) (qid : Nat) (kind : String) (copy : Bool),
      kind ≠ "shared" → kind ≠ "device" → kind ≠ "host" →
      (∀ m, has_usm_memory obj = some m →
        as_usm_backed obj (QueueArg.sycl qid) kind copy = .ok (m, 0)) ∧
      (∀ a, has_usm_memory obj = Option.none → obj.val = .ndarray a →
        a.dtype ∈ supported_numpy_dtype →
        as_usm_backed obj (QueueArg.sycl qid) kind copy =
          .error .InvalidMemoryKind) := by
  intro obj qid kind copy h1 h2 h3
  constructor
  · intro m hm
    simp [as_usm_backed, hm]
  · intro a hn hv hd
    simp [as_usm_backed, hn, hv, hd, h1, h2, h3]

/-- C10 witness: the invalid kind "banana" is accepted for a backed object and
rejected on the allocation path. -/
theorem C10_kind_checked_only_on_alloc_path_witness :
    as_usm_backed backed_obj2 (QueueArg.sycl 1) "banana" true =
      .ok (⟨List.replicate 4 1, some 3, "device"⟩, 0) ∧
    as_usm_backed arr_i32_obj (QueueArg.sycl 1) "banana" true =
      .error .InvalidMemoryKind :=
  ⟨(C10_kind_checked_only_on_alloc_path backed_obj2 1 "banana" true
      (by decide) (by decide) (by decide)).1 ⟨List.replicate 4 1, some 3, "device"⟩ rfl,
   (C10_kind_checked_only_on_alloc_path arr_i32_obj 1 "banana" true
      (by decide) (by decide) (by decide)).2 arr_i32 rfl rfl (by decide)⟩

/-- C6: for a well-formed non-C-contiguous host array passing the checks,
`copy_from_numpy_to_usm_obj` repacks: the packed copy is C-contiguous, holds
the same logical element values, `packed = true`, and the packed copy's bytes
are what is written into the buffer; for a C-contiguous input, `packed` is
`false`. -/
theorem C6_noncontiguous_repacks :
    ∀ (usm_backed : HostObj) (m : UsmMem) (a : NDArray),
      has_usm_memory usm_backed = some m →
      a.dtype ∈ supported_numpy_dtype →
      a.elems.length = a.shape.prod →
      (∀ e ∈ a.elems, e.length = a.dtype.itemsize) →
      m.size = a.dtype.itemsize * a.shape.prod →
      (a.c_contiguous = false →
        a.flatten.c_contiguous = true ∧
        a.flatten.elems = a.elems ∧
        copy_from_numpy_to_usm_obj usm_backed (.ndarray a) =
          .ok (.ndarray a, a.flatten, true, m.copy_from_host a.flatten.tobytes) ∧
        (m.copy_from_host a.flatten.tobytes).bytes = a.flatten.tobytes) ∧
      (a.c_contiguous = true →
        ∃ m2, copy_from_numpy_to_usm_obj usm_backed (.ndarray a) =
          .ok (.ndarray a, a, false, m2)) := by
  intro ub m a hm hd hlen hw hs
  have hbytes : a.flatten.tobytes.length = m.size := by
    unfold NDArray.flatten NDArray.tobytes
    rw [flatten_length_of_uniform a.dtype.itemsize a.elems hw, hlen]
    exact hs.symm
  constructor
  · intro hc
    refine ⟨rfl, rfl, ?_, ?_⟩
    · simp [copy_from_numpy_to_usm_obj, hm, hc, hd, NDArray.flatten, hs]
    · unfold UsmMem.copy_from_host
      rw [hbytes]
      unfold UsmMem.size
      rw [List.drop_length, List.append_nil]
  · intro hc
    exact ⟨m.copy_from_host a.tobytes,
      by simp [copy_from_numpy_to_usm_obj, hm, hc, hd, hs]⟩

/-- C6 witness: a concrete non-contiguous int32 array is repacked into a
C-contiguous 1-D copy with the same values, and the packed bytes land in the
buffer. -/
theorem C6_noncontiguous_repacks_witness :
    arr_i32_nc.flatten.c_contiguous = true ∧
    arr_i32_nc.flatten.elems = arr_i32_nc.elems ∧
    copy_from_numpy_to_usm_obj usm8 (.ndarray arr_i32_nc) =
      .ok (.ndarray arr_i32_nc, arr_i32_nc.flatten, true,
        usm8mem.copy_from_host arr_i32_nc.flatten.tobytes) ∧
    (usm8mem.copy_from_host arr_i32_nc.flatten.tobytes).bytes =
      arr_i32_nc.flatten.tobytes :=
  (C6_noncontiguous_repacks usm8 usm8mem arr_i32_nc rfl (by decide) (by decide)
    (by decide) (by decide)).1 rfl

/-- C3: for a supported-dtype, C-contiguous, well-formed host array `a` and an
exactly-sized buffer, copying `a` in with `copy_from_numpy_to_usm_obj` and then
out into any equally-sized contiguous well-formed destination with
`copy_to_numpy_from_usm_obj` reproduces `a`'s bytes exactly. -/
theorem C3_roundtrip_reproduces_bytes :
    ∀ (src : HostObj) (m : UsmMem) (a b : NDArray),
      has_usm_memory src = some m →
      a.c_contiguous = true →
      a.dtype ∈ supported_numpy_dtype →
      a.elems.length = a.shape.prod →
      (∀ e ∈ a.elems, e.length = a.dtype.itemsize) →
      m.size = a.dtype.itemsize * a.shape.prod →
      b.c_contiguous = true →
      b.dtype = a.dtype →
      b.shape.prod = a.shape.prod →
      b.elems.length = b.shape.prod →
      (∀ e ∈ b.elems, e.length = b.dtype.itemsize) →
      ∃ m2,
        copy_from_numpy_to_usm_obj src (.ndarray a) =
          .ok (.ndarray a, a, false, m2) ∧
        copy_to_numpy_from_usm_obj ⟨.ok m2, Option.none, .other "usm_mem"⟩
          (.ndarray b) = .ok a.tobytes := by
  intro src m a b hm hac had hal haw hs hbc hbd hbp hbl hbw
  have hta : a.tobytes.length = m.size := by
    unfold NDArray.tobytes
    rw [flatten_length_of_uniform a.dtype.itemsize a.elems haw, hal]
    exact hs.symm
  have htb : b.tobytes.length = m.size := by
    unfold NDArray.tobytes
    rw [flatten_length_of_uniform b.dtype.itemsize b.elems hbw, hbl, hbd, hbp]
    exact hs.symm
  have hm2bytes : (m.copy_from_host a.tobytes).bytes = a.tobytes := by
    unfold UsmMem.copy_from_host
    rw [hta]
    unfold UsmMem.size
    rw [List.drop_length, List.append_nil]
  have hm2size : (m.copy_from_host a.tobytes).size = m.size := by
    unfold UsmMem.size
    rw [hm2bytes]
    exact hta
  refine ⟨m.copy_from_host a.tobytes, ?_, ?_⟩
  · simp [copy_from_numpy_to_usm_obj, hm, hac, had, hs]
  · have hbsize : (m.copy_from_host a.tobytes).size = b.dtype.itemsize * b.shape.prod := by
      rw [hm2size, hbd, hbp]
      exact hs
    have hout : (m.copy_from_host a.tobytes).copy_to_host b.tobytes = a.tobytes := by
      unfold UsmMem.copy_to_host
      rw [hm2bytes, hm2size, ← htb, List.drop_length, List.append_nil]
    simp [copy_to_numpy_from_usm_obj, has_usm_memory, hbd, had, hbsize, hbc, hout]

/-- C3 witness: a concrete int32 array round-trips byte-exactly through an
8-byte USM buffer into a zero-filled destination of the same shape. -/
theorem C3_roundtrip_reproduces_bytes_witness :
    ∃ m2,
      copy_from_numpy_to_usm_obj usm8 (.ndarray arr_i32) =
        .ok (.ndarray arr_i32, arr_i32, false, m2) ∧
      copy_to_numpy_from_usm_obj ⟨.ok m2, Option.none, .other "usm_mem"⟩
        (.ndarray arr_i32_zero) = .ok arr_i32.tobytes :=
  C3_roundtrip_reproduces_bytes usm8 usm8mem arr_i32 arr_i32_zero rfl rfl
    (by decide) (by decide) (by decide) (by decide) rfl rfl rfl (by decide) (by decide)

end NumbaDppy
